import Mathlib

/-!
# chatservice: conversation context and streaming completion

A shallow embedding of the Go packages

* `internal/domain/entities` (`message.go`, `chat.go`),
* `internal/infra/repository` (`chat.go`),
* `internal/usecase/chatcompletionstream` (`completion.go`),

followed by theorems about them.

Conventions of the embedding:

* Go `int` is the 64-bit signed integer of the platforms the service targets.  A value of type
  `int` is embedded as an `Int`, and every addition of two `int`s the code performs wraps around
  at `2^63` (`wrapInt`); the conversions `int32(x)` wrap at `2^31` (`db.toInt32`).
* Go `float32`/`float64` configuration values are embedded as rationals; the code only stores,
  copies and compares them.
* A Go `error` is embedded as its message (`String`); a function returning `(T, error)` returns
  `Except String T`.
* Pointers to structs are embedded as the struct value; the one pointer the code itself leaves
  `nil` (`Chat.InitialSystemMessage` after `FindChatByID`) and the optional `Config` of the turn
  input are `Option`s.
* A run-time panic (index out of range, nil dereference) is an explicit outcome.
* `uuid.New().String()` and `tiktoken_go.CountTokens` are external; the identifiers they produce
  and the counting function are parameters.
-/

namespace entities

/-- Modelled from the spec: the `Model` entity (file `model.go`), a model name together with its
maximum token capacity. -/
structure Model where
  Name : String
  MaxTokens : Int
deriving DecidableEq, Repr

/-- Modelled from the spec: constructor of `Model` (file `model.go`). -/
def NewModel (name : String) (maxTokens : Int) : Model :=
  { Name := name, MaxTokens := maxTokens }

/-- Modelled from the spec: accessor of the capacity (file `model.go`). -/
def Model.GetMaxTokens (model : Model) : Int := model.MaxTokens

/-- Modelled from the spec: accessor of the model name (file `model.go`). -/
def Model.GetModelName (model : Model) : String := model.Name

/-- Go `time.Time`, as the number of nanoseconds since the zero instant.  `time.Time{}` is the
zero instant. -/
structure Time where
  nanos : Int
deriving DecidableEq, Repr

/-- The Go composite literal `time.Time{}`. -/
def Time.zeroValue : Time := { nanos := 0 }

/-- Go `Time.IsZero`. -/
def Time.IsZero (t : Time) : Bool := t.nanos == 0

/-- The struct `Message` of `message.go`. -/
structure Message where
  ID : String
  Role : String
  Content : String
  Tokens : Int
  Model : Model
  CreatedAt : Time
deriving DecidableEq, Repr

/-- The method `Message.Validate` of `message.go`: `none` is the Go `nil` error. -/
def Message.Validate (message : Message) : Option String :=
  if message.Role ≠ "user" ∧ message.Role ≠ "system" ∧ message.Role ≠ "assistant" then
    some "Invalid Role"
  else if message.Content = "" then
    some "Content is empty!"
  else if message.CreatedAt.IsZero then
    some "Invalid created_at"
  else
    none

/-- The function `NewMessage` of `message.go`.  `CountTokens` is `tiktoken_go.CountTokens` and
`id` the string of the fresh UUID. -/
def NewMessage (CountTokens : String → String → Int) (id : String)
    (role content : String) (model : Model) : Except String Message :=
  let totalTokens := CountTokens model.GetModelName content
  let message : Message :=
    { ID := id
      Role := role
      Content := content
      Tokens := totalTokens
      Model := model
      CreatedAt := Time.zeroValue }
  match message.Validate with
  | some erro => .error erro
  | none => .ok message

/-- The method `Message.GetQtdToken` of `message.go`. -/
def Message.GetQtdToken (message : Message) : Int := message.Tokens

/-- The struct `ChatConfig` of `chat.go`. -/
structure ChatConfig where
  Model : Model
  Temperature : ℚ
  TopP : ℚ
  N : Int
  Stop : List String
  MaxTokens : Int
  PresencePenalty : ℚ
  FrequencyPenalty : ℚ
deriving DecidableEq

/-- The struct `Chat` of `chat.go`. -/
structure Chat where
  ID : String
  UserID : String
  InitialSystemMessage : Option Message
  Messages : List Message
  EraseMessages : List Message
  Status : String
  TokenUsage : Int
  Config : ChatConfig
deriving DecidableEq

/-- How a call of a Go function ends: it returns a value, returns an error, or panics. -/
inductive Outcome (α : Type) where
  | ok (value : α)
  | error (erro : String)
  | panic (reason : String)
deriving DecidableEq

/-- How a call of the pointer-receiver method `AddMessage` ends: it returns (with the receiver
in state `chat` and the error `erro`, `none` for `nil`), or it panics. -/
inductive AddResult where
  | done (chat : Chat) (erro : Option String)
  | panic (reason : String)
deriving DecidableEq

/-- The value of a Go `int` (64 bits, signed) that holds the result `x` of an addition: `x`
modulo `2^64`, read as a signed number between `-2^63` and `2^63 - 1`. -/
def wrapInt (x : Int) : Int :=
  (x + 9223372036854775808) % 18446744073709551616 - 9223372036854775808

/-- Sum of the token counts of a message list, accumulated from `0` in list order with the
wrapping `+=` of the loop of `RefreshTokenUsage`. -/
def tokenSum (messages : List Message) : Int :=
  messages.foldl (fun usage message => wrapInt (usage + message.GetQtdToken)) 0

/-- The method `Chat.RefreshTokenUsage` of `chat.go`. -/
def Chat.RefreshTokenUsage (chat : Chat) : Chat :=
  { chat with TokenUsage := tokenSum chat.Messages }

/-- The `for` loop of `Chat.AddMessage`.  The first argument is `chat.Messages`, on which the loop
recurses: every iteration that does not break removes its head.  `erased` is
`chat.EraseMessages` and `usage` is `chat.TokenUsage` at the head of the iteration.  The sum in
the capacity test is a Go `int` addition and wraps. -/
def Chat.addMessageLoop (chat : Chat) (message : Message) :
    List Message → List Message → Int → AddResult
  | [], erased, usage =>
    if chat.Config.Model.GetMaxTokens ≥ wrapInt (message.GetQtdToken + usage) then
      .done (Chat.RefreshTokenUsage
        { chat with Messages := [] ++ [message], EraseMessages := erased }) none
    else
      .panic "index out of range [0] with length 0"
  | oldest :: rest, erased, usage =>
    if chat.Config.Model.GetMaxTokens ≥ wrapInt (message.GetQtdToken + usage) then
      .done (Chat.RefreshTokenUsage
        { chat with Messages := (oldest :: rest) ++ [message], EraseMessages := erased }) none
    else
      Chat.addMessageLoop chat message rest (erased ++ [oldest]) (tokenSum rest)

/-- The method `Chat.AddMessage` of `chat.go`. -/
def Chat.AddMessage (chat : Chat) (message : Message) : AddResult :=
  if chat.Status = "ended" then
    .done chat (some "Chat is ended, no more messages allowed")
  else
    Chat.addMessageLoop chat message chat.Messages chat.EraseMessages chat.TokenUsage

/-- The method `Chat.GetMessages` of `chat.go`. -/
def Chat.GetMessages (chat : Chat) : List Message := chat.Messages

/-- The method `Chat.CountMessages` of `chat.go`. -/
def Chat.CountMessages (chat : Chat) : Int := chat.Messages.length

/-- The method `Chat.End` of `chat.go`. -/
def Chat.End (chat : Chat) : Chat := { chat with Status := "ended" }

/-- The method `Chat.Validate` of `chat.go`. -/
def Chat.Validate (chat : Chat) : Option String :=
  if chat.UserID = "" then
    some "User id is empty!"
  else if chat.Status ≠ "active" ∧ chat.Status ≠ "ended" then
    some "Invalid status!"
  else if chat.Config.Temperature < 0 ∨ chat.Config.Temperature > 2 then
    some "Invalid temperature!"
  else
    none

/-- The function `NewChat` of `chat.go`; `id` is the string of the fresh UUID.  The error that
`AddMessage` returns is dropped, as in the source. -/
def NewChat (id : String) (userID : String) (initialSystemMessage : Message)
    (chatConfig : ChatConfig) : Outcome Chat :=
  let chat : Chat :=
    { ID := id
      UserID := userID
      InitialSystemMessage := some initialSystemMessage
      Messages := []
      EraseMessages := []
      Status := "active"
      Config := chatConfig
      TokenUsage := 0 }
  match chat.AddMessage initialSystemMessage with
  | .panic reason => .panic reason
  | .done chat _ =>
    match chat.Validate with
    | some erro => .error erro
    | none => .ok chat

end entities

open entities

namespace db

/-- Go conversion `int32(x)` of an `int`: the value modulo `2^32`, read as a signed 32-bit
number. -/
def toInt32 (x : Int) : Int := (x + 2147483648) % 4294967296 - 2147483648

/-- Modelled from the spec: the parameter struct `db.CreateChatParams` of the generated query
package `internal/infra/db`, with the fields the repository fills in. -/
structure CreateChatParams where
  ID : String
  UserID : String
  InitialMessageID : String
  Status : String
  TokenUsage : Int
  Model : String
  ModelMaxTokens : Int
  Temperature : ℚ
  TopP : ℚ
  N : Int
  Stop : String
  MaxTokens : Int
  PresencePenalty : ℚ
  FrequencyPenalty : ℚ
  CreatedAt : Time
  UpdatedAt : Time
deriving DecidableEq

/-- Modelled from the spec: the parameter struct `db.SaveChatParams` of `internal/infra/db`. -/
structure SaveChatParams where
  ID : String
  UserID : String
  Status : String
  TokenUsage : Int
  Model : String
  ModelMaxTokens : Int
  Temperature : ℚ
  TopP : ℚ
  N : Int
  Stop : String
  MaxTokens : Int
  PresencePenalty : ℚ
  FrequencyPenalty : ℚ
  UpdatedAt : Time
deriving DecidableEq

/-- Modelled from the spec: the parameter struct `db.AddMessageParams` of `internal/infra/db`;
fields a composite literal omits take their zero value. -/
structure AddMessageParams where
  ID : String
  ChatID : String
  Content : String
  Role : String
  Tokens : Int
  Model : String := ""
  CreatedAt : Time
  OrderMsg : Int := 0
  Erased : Bool := false
deriving DecidableEq

/-- Modelled from the spec: the row struct `db.Chat` of `internal/infra/db`, as returned by the
query `FindChatByID`. -/
structure ChatRow where
  ID : String
  UserID : String
  InitialMessageID : String
  Status : String
  TokenUsage : Int
  Model : String
  ModelMaxTokens : Int
  Temperature : ℚ
  TopP : ℚ
  N : Int
  Stop : String
  MaxTokens : Int
  PresencePenalty : ℚ
  FrequencyPenalty : ℚ
  CreatedAt : Time
  UpdatedAt : Time
deriving DecidableEq

/-- Modelled from the spec: the row struct `db.Message` of `internal/infra/db`, as returned by
the queries `FindMessagesByChatID` and `FindErasedMessagesByChatID`. -/
structure MessageRow where
  ID : String
  ChatID : String
  Content : String
  Role : String
  Tokens : Int
  Model : String
  CreatedAt : Time
  OrderMsg : Int
  Erased : Bool
deriving DecidableEq

/-- Modelled from the spec: the query set `db.Queries` of `internal/infra/db`, over a database
state `σ`.  A query that writes returns the new state and its error (`none` for `nil`); a query
that reads returns its rows or an error.  Nothing is assumed about what the queries do. -/
structure Queries (σ : Type) where
  CreateChat : σ → CreateChatParams → σ × Option String
  AddMessage : σ → AddMessageParams → σ × Option String
  FindChatByID : σ → String → Except String ChatRow
  FindMessagesByChatID : σ → String → Except String (List MessageRow)
  FindErasedMessagesByChatID : σ → String → Except String (List MessageRow)
  SaveChat : σ → SaveChatParams → σ × Option String
  DeleteChatMessages : σ → String → σ × Option String
  DeleteErasedChatMessages : σ → String → σ × Option String

/-- Modelled from the spec: an in-memory database, a table of chats and a table of messages in
insertion order. -/
structure MemDB where
  chats : List ChatRow
  messages : List MessageRow
deriving DecidableEq

/-- Modelled from the spec: the chat row an insert of `CreateChatParams` stores. -/
def chatRowOfParams (p : CreateChatParams) : ChatRow :=
  { ID := p.ID
    UserID := p.UserID
    InitialMessageID := p.InitialMessageID
    Status := p.Status
    TokenUsage := p.TokenUsage
    Model := p.Model
    ModelMaxTokens := p.ModelMaxTokens
    Temperature := p.Temperature
    TopP := p.TopP
    N := p.N
    Stop := p.Stop
    MaxTokens := p.MaxTokens
    PresencePenalty := p.PresencePenalty
    FrequencyPenalty := p.FrequencyPenalty
    CreatedAt := p.CreatedAt
    UpdatedAt := p.UpdatedAt }

/-- Modelled from the spec: the chat row an overwrite with `SaveChatParams` leaves. -/
def updateChatRow (p : SaveChatParams) (row : ChatRow) : ChatRow :=
  { row with
    UserID := p.UserID
    Status := p.Status
    TokenUsage := p.TokenUsage
    Model := p.Model
    ModelMaxTokens := p.ModelMaxTokens
    Temperature := p.Temperature
    TopP := p.TopP
    N := p.N
    Stop := p.Stop
    MaxTokens := p.MaxTokens
    PresencePenalty := p.PresencePenalty
    FrequencyPenalty := p.FrequencyPenalty
    UpdatedAt := p.UpdatedAt }

/-- Modelled from the spec: the message row an insert of `AddMessageParams` stores. -/
def messageRowOfParams (p : AddMessageParams) : MessageRow :=
  { ID := p.ID
    ChatID := p.ChatID
    Content := p.Content
    Role := p.Role
    Tokens := p.Tokens
    Model := p.Model
    CreatedAt := p.CreatedAt
    OrderMsg := p.OrderMsg
    Erased := p.Erased }

/-- Modelled from the spec: the queries of `internal/infra/db` run on the in-memory database.
`SaveChat` overwrites the chat row of the same id; the two finders return the rows of the chat
tagged not-erased, respectively erased, in their stored order; the two deletes remove them. -/
def memQueries : Queries MemDB where
  CreateChat := fun d p => ({ d with chats := d.chats ++ [chatRowOfParams p] }, none)
  AddMessage := fun d p => ({ d with messages := d.messages ++ [messageRowOfParams p] }, none)
  FindChatByID := fun d id =>
    match d.chats.find? (fun row => row.ID == id) with
    | some row => .ok row
    | none => .error "sql: no rows in result set"
  FindMessagesByChatID := fun d id =>
    .ok (d.messages.filter (fun row => row.ChatID == id && !row.Erased))
  FindErasedMessagesByChatID := fun d id =>
    .ok (d.messages.filter (fun row => row.ChatID == id && row.Erased))
  SaveChat := fun d p =>
    ({ d with chats := d.chats.map (fun row => if row.ID = p.ID then updateChatRow p row else row) },
      none)
  DeleteChatMessages := fun d id =>
    ({ d with messages := d.messages.filter (fun row => !(row.ChatID == id && !row.Erased)) },
      none)
  DeleteErasedChatMessages := fun d id =>
    ({ d with messages := d.messages.filter (fun row => !(row.ChatID == id && row.Erased)) },
      none)

end db

namespace repository

open db

/-- The method `ChatRepositoryMySQL.CreateChat` of `repository/chat.go`, over the queries `q`
and the database state `d`: the state it leaves and how the call ends. -/
def CreateChat {σ : Type} (q : Queries σ) (d : σ) (chat : Chat) : σ × Outcome Unit :=
  match chat.InitialSystemMessage with
  | none => (d, .panic "invalid memory address or nil pointer dereference")
  | some initialSystemMessage =>
    match chat.Config.Stop with
    | [] => (d, .panic "index out of range [0] with length 0")
    | stop0 :: _ =>
      match q.CreateChat d
          { ID := chat.ID
            UserID := chat.UserID
            InitialMessageID := initialSystemMessage.Content
            Status := chat.Status
            TokenUsage := toInt32 chat.TokenUsage
            Model := chat.Config.Model.Name
            ModelMaxTokens := toInt32 chat.Config.Model.MaxTokens
            Temperature := chat.Config.Temperature
            TopP := chat.Config.TopP
            N := toInt32 chat.Config.N
            Stop := stop0
            MaxTokens := toInt32 chat.Config.MaxTokens
            PresencePenalty := chat.Config.PresencePenalty
            FrequencyPenalty := chat.Config.FrequencyPenalty
            CreatedAt := Time.zeroValue
            UpdatedAt := Time.zeroValue } with
      | (d1, some err) => (d1, .error err)
      | (d1, none) =>
        match q.AddMessage d1
            { ID := initialSystemMessage.ID
              ChatID := chat.ID
              Content := initialSystemMessage.Content
              Role := initialSystemMessage.Role
              Tokens := toInt32 initialSystemMessage.Tokens
              CreatedAt := initialSystemMessage.CreatedAt } with
        | (d2, some err) => (d2, .error err)
        | (d2, none) => (d2, .ok ())

/-- The struct literal both loading loops of `FindChatByID` build from a message row. -/
def messageOfRow (row : MessageRow) : Message :=
  { ID := row.ID
    Content := row.Content
    Role := row.Role
    Tokens := row.Tokens
    Model := { Name := row.Model, MaxTokens := 0 }
    CreatedAt := row.CreatedAt }

/-- The method `ChatRepositoryMySQL.FindChatByID` of `repository/chat.go`.  Both loading loops
append to `chat.Messages`, as in the source; `EraseMessages` and `InitialSystemMessage` keep the
zero value of the fresh `entities.Chat`. -/
def FindChatByID {σ : Type} (q : Queries σ) (d : σ) (chatID : String) : Except String Chat :=
  match q.FindChatByID d chatID with
  | .error _ => .error "Chat not found!"
  | .ok resp =>
    match q.FindMessagesByChatID d chatID with
    | .error erro => .error erro
    | .ok messages =>
      match q.FindErasedMessagesByChatID d chatID with
      | .error erro => .error erro
      | .ok erasedMessages =>
        .ok
          { ID := resp.ID
            UserID := resp.UserID
            InitialSystemMessage := none
            Messages := ([] ++ messages.map messageOfRow) ++ erasedMessages.map messageOfRow
            EraseMessages := []
            Status := resp.Status
            TokenUsage := resp.TokenUsage
            Config :=
              { Model := { Name := resp.Model, MaxTokens := resp.ModelMaxTokens }
                Temperature := resp.Temperature
                TopP := resp.TopP
                N := resp.N
                Stop := [resp.Stop]
                MaxTokens := resp.MaxTokens
                PresencePenalty := resp.PresencePenalty
                FrequencyPenalty := resp.FrequencyPenalty } }

/-- One of the two saving loops of `SaveChat`: `AddMessage` for every message of the list, with
the running index `i` as `OrderMsg` and the given `Erased` tag; stops at the first error.  The
increment `i++` is a Go `int` addition. -/
def saveMessages {σ : Type} (q : Queries σ) (chat : Chat) (erased : Bool) :
    List Message → Int → σ → σ × Option String
  | [], _, d => (d, none)
  | message :: rest, i, d =>
    match q.AddMessage d
        { ID := message.ID
          ChatID := chat.ID
          Content := message.Content
          Role := message.Role
          Tokens := toInt32 message.Tokens
          Model := chat.Config.Model.Name
          CreatedAt := message.CreatedAt
          OrderMsg := toInt32 i
          Erased := erased } with
    | (d1, some err) => (d1, some err)
    | (d1, none) => saveMessages q chat erased rest (wrapInt (i + 1)) d1

/-- The method `ChatRepositoryMySQL.SaveChat` of `repository/chat.go`; `now` is `time.Now()`. -/
def SaveChat {σ : Type} (q : Queries σ) (now : Time) (d : σ) (chat : Chat) : σ × Outcome Unit :=
  match chat.Config.Stop with
  | [] => (d, .panic "index out of range [0] with length 0")
  | stop0 :: _ =>
    match q.SaveChat d
        { ID := chat.ID
          UserID := chat.UserID
          Status := chat.Status
          TokenUsage := toInt32 chat.TokenUsage
          Model := chat.Config.Model.Name
          ModelMaxTokens := toInt32 chat.Config.Model.MaxTokens
          Temperature := chat.Config.Temperature
          TopP := chat.Config.TopP
          N := toInt32 chat.Config.N
          Stop := stop0
          MaxTokens := toInt32 chat.Config.MaxTokens
          PresencePenalty := chat.Config.PresencePenalty
          FrequencyPenalty := chat.Config.FrequencyPenalty
          UpdatedAt := now } with
    | (d1, some err) => (d1, .error err)
    | (d1, none) =>
      match q.DeleteChatMessages d1 chat.ID with
      | (d2, some err) => (d2, .error err)
      | (d2, none) =>
        match q.DeleteErasedChatMessages d2 chat.ID with
        | (d3, some err) => (d3, .error err)
        | (d3, none) =>
          match saveMessages q chat false chat.Messages 0 d3 with
          | (d4, some err) => (d4, .error err)
          | (d4, none) =>
            match saveMessages q chat true chat.EraseMessages 0 d4 with
            | (d5, some err) => (d5, .error err)
            | (d5, none) => (d5, .ok ())

end repository

namespace chatcompletionstream

/-- The struct `ChatCompletionConfigInputDTO` of `completion.go`. -/
structure ChatCompletionConfigInputDTO where
  Model : String
  ModelMaxToken : Int
  Temperature : ℚ
  TopP : ℚ
  N : Int
  Stop : List String
  MaxTokens : Int
  PresencePenalty : ℚ
  FrequencyPenalty : ℚ
  InitialSystemMessage : String
deriving DecidableEq

/-- The struct `ChatCompletionInputDTO` of `completion.go`; `Config` is a pointer that may be
`nil`. -/
structure ChatCompletionInputDTO where
  ChatID : String
  UserID : String
  UserMessage : String
  Config : Option ChatCompletionConfigInputDTO
deriving DecidableEq

/-- The struct `ChatCompletionOutputDTO` of `completion.go`. -/
structure ChatCompletionOutputDTO where
  ChatID : String
  UserID : String
  Content : String
deriving DecidableEq

/-- The interface `gateway.ChatGateway` of `gateway/chat.go`.  `Execute` calls each method at
most once in a turn, so a response function per method covers every behaviour of a store. -/
structure ChatGateway where
  CreateChat : Chat → Outcome Unit
  FindChatByID : String → Outcome Chat
  SaveChat : Chat → Outcome Unit

/-- The library struct `openai.ChatCompletionMessage`, with the fields `Execute` fills in. -/
structure ChatCompletionMessage where
  Role : String
  Content : String
deriving DecidableEq

/-- The library struct `openai.CompletionRequest`, with the fields `Execute` fills in. -/
structure CompletionRequest where
  Model : String
  Messages : List ChatCompletionMessage
  MaxTokens : Int
  Temperature : ℚ
  TopP : ℚ
  PresencePenalty : ℚ
  FrequencyPenalty : ℚ
  Stop : List String
  Stream : Bool
deriving DecidableEq

/-- What a model stream delivers to successive `Recv` calls: the responses, each given by the
`Delta.Content` of its `Choices`, and then the end, `none` for `io.EOF` and `some e` for another
error. -/
structure CompletionStream where
  responses : List (List String)
  ending : Option String
deriving DecidableEq

/-- The strings of the fresh UUIDs of one turn, one per call site of `uuid.New`. -/
structure FreshIDs where
  system : String
  chat : String
  user : String
  assistant : String
deriving DecidableEq

/-- What the struct `ChatCompletionUseCase` holds and what `Execute` reaches through it: the
gateway, the method `CreateCompletionStream` of the model client, the token counter and the
fresh identifiers.  Its channel `Stream` is the `send` events of a run. -/
structure ChatCompletionUseCase where
  ChatGateway : ChatGateway
  CreateCompletionStream : CompletionRequest → Except String CompletionStream
  CountTokens : String → String → Int
  ids : FreshIDs

/-- What a turn does to the outside, in order. -/
inductive Event where
  | findChatByID (chatID : String)
  | createChat (chat : Chat)
  | saveChat (chat : Chat)
  | createCompletionStream (request : CompletionRequest)
  | send (output : ChatCompletionOutputDTO)
deriving DecidableEq

/-- Whether an event is a write of the store. -/
def Event.isWrite : Event → Bool
  | .createChat _ => true
  | .saveChat _ => true
  | _ => false

/-- A run of a piece of `Execute`: the events in order and how it ends. -/
structure Run (α : Type) where
  events : List Event
  result : Outcome α
deriving DecidableEq

/-- The function `CreateNewChat` of `completion.go`. -/
def CreateNewChat (CountTokens : String → String → Int) (ids : FreshIDs)
    (input : ChatCompletionInputDTO) : Outcome Chat :=
  match input.Config with
  | none => .panic "invalid memory address or nil pointer dereference"
  | some config =>
    let model := NewModel config.Model config.ModelMaxToken
    let chatConfig : ChatConfig :=
      { Temperature := config.Temperature
        TopP := config.TopP
        N := config.N
        Stop := config.Stop
        MaxTokens := config.MaxTokens
        PresencePenalty := config.PresencePenalty
        FrequencyPenalty := config.FrequencyPenalty
        Model := model }
    match NewMessage CountTokens ids.system "System" config.InitialSystemMessage model with
    | .error erro => .error ("Error creating initial message: " ++ erro)
    | .ok initialMessage =>
      match NewChat ids.chat input.UserID initialMessage chatConfig with
      | .panic reason => .panic reason
      | .error erro => .error ("Error creating new chat: " ++ erro)
      | .ok chat => .ok chat

/-- The receive loop of `Execute`: for every response, append `Choices[0].Delta.Content` to the
builder `fullResponse` and send a snapshot with the builder's content; `io.EOF` ends the loop
with the builder's content, another error ends the turn. -/
def recvLoop (chatID userID : String) (ending : Option String) :
    List (List String) → String → Run String
  | [], fullResponse =>
    match ending with
    | none => { events := [], result := .ok fullResponse }
    | some erro => { events := [], result := .error ("Error streaming response: " ++ erro) }
  | choices :: rest, fullResponse =>
    match choices with
    | [] => { events := [], result := .panic "index out of range [0] with length 0" }
    | delta :: _ =>
      let res : ChatCompletionOutputDTO :=
        { ChatID := chatID, UserID := userID, Content := fullResponse ++ delta }
      let next := recvLoop chatID userID ending rest (fullResponse ++ delta)
      { events := Event.send res :: next.events, result := next.result }

/-- The first statement of `Execute`, up to the end of its `if erro != nil` block: the chat the
turn works on. -/
def resolveChat (useCase : ChatCompletionUseCase) (input : ChatCompletionInputDTO) : Run Chat :=
  match useCase.ChatGateway.FindChatByID input.ChatID with
  | .panic reason => { events := [.findChatByID input.ChatID], result := .panic reason }
  | .ok chat => { events := [.findChatByID input.ChatID], result := .ok chat }
  | .error erro =>
    if erro = "chat not found" then
      match CreateNewChat useCase.CountTokens useCase.ids input with
      | .panic reason => { events := [.findChatByID input.ChatID], result := .panic reason }
      | .error erro =>
        { events := [.findChatByID input.ChatID]
          result := .error ("Error creating new chat: " ++ erro) }
      | .ok chat =>
        match useCase.ChatGateway.CreateChat chat with
        | .panic reason =>
          { events := [.findChatByID input.ChatID, .createChat chat], result := .panic reason }
        | .error erro =>
          { events := [.findChatByID input.ChatID, .createChat chat]
            result := .error ("Error persisting new chat: " ++ erro) }
        | .ok _ =>
          { events := [.findChatByID input.ChatID, .createChat chat], result := .ok chat }
    else
      { events := [.findChatByID input.ChatID]
        result := .error ("Error fetching existing chat: " ++ erro) }

/-- The rest of `Execute`, from the construction of the user message to the final `return`, on
the chat the first statement found or created. -/
def completeTurn (useCase : ChatCompletionUseCase) (input : ChatCompletionInputDTO)
    (chat : Chat) : Run ChatCompletionOutputDTO :=
  match NewMessage useCase.CountTokens useCase.ids.user "user" input.UserMessage
      chat.Config.Model with
  | .error erro => { events := [], result := .error ("Error creating user message: " ++ erro) }
  | .ok userMessage =>
    match chat.AddMessage userMessage with
    | .panic reason => { events := [], result := .panic reason }
    | .done _ (some erro) =>
      { events := [], result := .error ("Error adding new message: " ++ erro) }
    | .done chat none =>
      let messages : List ChatCompletionMessage :=
        chat.Messages.map (fun msg => { Role := msg.Role, Content := msg.Content })
      let request : CompletionRequest :=
        { Model := chat.Config.Model.Name
          Messages := messages
          MaxTokens := chat.Config.MaxTokens
          Temperature := chat.Config.Temperature
          TopP := chat.Config.TopP
          PresencePenalty := chat.Config.PresencePenalty
          FrequencyPenalty := chat.Config.FrequencyPenalty
          Stop := chat.Config.Stop
          Stream := true }
      match useCase.CreateCompletionStream request with
      | .error erro =>
        { events := [.createCompletionStream request]
          result := .error ("Error creating chat completion: " ++ erro) }
      | .ok resp =>
        let received := recvLoop chat.ID input.UserID resp.ending resp.responses ""
        match received.result with
        | .panic reason =>
          { events := .createCompletionStream request :: received.events
            result := .panic reason }
        | .error erro =>
          { events := .createCompletionStream request :: received.events
            result := .error erro }
        | .ok fullResponse =>
          match NewMessage useCase.CountTokens useCase.ids.assistant "assistant" fullResponse
              chat.Config.Model with
          | .error erro =>
            { events := .createCompletionStream request :: received.events
              result := .error ("Error creating assistant message: " ++ erro) }
          | .ok assistant =>
            match chat.AddMessage assistant with
            | .panic reason =>
              { events := .createCompletionStream request :: received.events
                result := .panic reason }
            | .done _ (some erro) =>
              { events := .createCompletionStream request :: received.events
                result := .error ("Error adding new message: " ++ erro) }
            | .done chat none =>
              match useCase.ChatGateway.SaveChat chat with
              | .panic reason =>
                { events := .createCompletionStream request :: received.events ++ [.saveChat chat]
                  result := .panic reason }
              | .error erro =>
                { events := .createCompletionStream request :: received.events ++ [.saveChat chat]
                  result := .error ("Error saving chat: " ++ erro) }
              | .ok _ =>
                { events := .createCompletionStream request :: received.events ++ [.saveChat chat]
                  result := .ok
                    { ChatID := chat.ID, UserID := input.UserID, Content := fullResponse } }

/-- The method `ChatCompletionUseCase.Execute` of `completion.go`. -/
def Execute (useCase : ChatCompletionUseCase) (input : ChatCompletionInputDTO) :
    Run ChatCompletionOutputDTO :=
  let resolved := resolveChat useCase input
  match resolved.result with
  | .panic reason => { events := resolved.events, result := .panic reason }
  | .error erro => { events := resolved.events, result := .error erro }
  | .ok chat =>
    let turn := completeTurn useCase input chat
    { events := resolved.events ++ turn.events, result := turn.result }

end chatcompletionstream

open chatcompletionstream

/-! ## Definitions used to state the properties -/

/-- The results of calling `AddMessage` with the messages of a list one after the other on a
chat; a panic ends the sequence. -/
def addMessages (chat : Chat) : List Message → List AddResult
  | [] => []
  | message :: rest =>
    match chat.AddMessage message with
    | .panic reason => [.panic reason]
    | .done next erro => .done next erro :: addMessages next rest

/-- The snapshots a stream of chunks should publish: after each chunk, everything received so
far, following `start`. -/
def snapshots (chatID userID : String) : String → List String → List ChatCompletionOutputDTO
  | _, [] => []
  | start, chunk :: rest =>
    { ChatID := chatID, UserID := userID, Content := start ++ chunk }
      :: snapshots chatID userID (start ++ chunk) rest

/-- The repository as an implementation of the gateway interface, over the queries `q`, with the
database in state `d` when the turn starts and `now` as the time of a save. -/
def repositoryGateway {σ : Type} (q : db.Queries σ) (now : Time) (d : σ) : ChatGateway :=
  { CreateChat := fun chat => (repository.CreateChat q d chat).2
    FindChatByID := fun chatID =>
      match repository.FindChatByID q d chatID with
      | .ok chat => .ok chat
      | .error erro => .error erro
    SaveChat := fun chat => (repository.SaveChat q now d chat).2 }

/-! ## Concrete inputs -/

/-- A model with a capacity of 10 tokens. -/
def exampleModel : Model := { Name := "gpt-3.5-turbo", MaxTokens := 10 }

/-- A valid configuration over `exampleModel`, with one stop sequence. -/
def exampleConfig : ChatConfig :=
  { Model := exampleModel
    Temperature := 1
    TopP := 1
    N := 1
    Stop := ["END"]
    MaxTokens := 5
    PresencePenalty := 0
    FrequencyPenalty := 0 }

/-- A valid message with the given identifier, role, content and token count. -/
def exampleMessage (id role content : String) (tokens : Int) : Message :=
  { ID := id
    Role := role
    Content := content
    Tokens := tokens
    Model := exampleModel
    CreatedAt := { nanos := 1700000000 } }

/-- A system message of 4 tokens. -/
def systemMessage : Message := exampleMessage "m1" "system" "be brief" 4

/-- A user message of 3 tokens. -/
def userHi : Message := exampleMessage "m2" "user" "hi" 3

/-- An assistant message of 2 tokens. -/
def assistantHello : Message := exampleMessage "m3" "assistant" "hello" 2

/-- A user message of 3 tokens. -/
def userWhy : Message := exampleMessage "m4" "user" "why" 3

/-- A message of 11 tokens, one more than the capacity of `exampleModel`. -/
def oversizeMessage : Message := exampleMessage "m5" "user" "too long" 11

/-- The chat `NewChat` builds from `systemMessage` and `exampleConfig`. -/
def freshChat : Chat :=
  { ID := "chat-1"
    UserID := "user-1"
    InitialSystemMessage := some systemMessage
    Messages := [systemMessage]
    EraseMessages := []
    Status := "active"
    TokenUsage := 4
    Config := exampleConfig }

/-- An active chat of capacity 10 whose active messages use 4, 3 and 2 tokens. -/
def boundaryChat : Chat :=
  { freshChat with Messages := [systemMessage, userHi, assistantHello], TokenUsage := 9 }

/-- The chat `boundaryChat` after the 3-token message `userWhy` was added. -/
def boundaryChatAfter : Chat :=
  { freshChat with
    Messages := [userHi, assistantHello, userWhy]
    EraseMessages := [systemMessage]
    TokenUsage := 8 }

/-- A configuration whose capacity is the largest Go `int`, `2^63 - 1`. -/
def maxIntConfig : ChatConfig :=
  { exampleConfig with Model := { Name := "gpt-3.5-turbo", MaxTokens := 9223372036854775807 } }

/-- A message whose token count is the largest Go `int`. -/
def maxIntMessage : Message := exampleMessage "m1" "system" "be brief" 9223372036854775807

/-- A message of 1 token. -/
def oneTokenMessage : Message := exampleMessage "m2" "user" "a" 1

/-- The chat `NewChat` builds from `maxIntMessage` and `maxIntConfig`. -/
def maxIntChat : Chat :=
  { freshChat with
    InitialSystemMessage := some maxIntMessage
    Messages := [maxIntMessage]
    TokenUsage := 9223372036854775807
    Config := maxIntConfig }

/-- A configuration with the temperature 1.5. -/
def warmConfig : ChatConfig := { exampleConfig with Temperature := 3 / 2 }

/-- A token counter for the examples: one token per character. -/
def exampleCount : String → String → Int := fun _ text => text.length

/-- Fresh identifiers for the examples. -/
def exampleIDs : FreshIDs :=
  { system := "id-system", chat := "id-chat", user := "id-user", assistant := "id-assistant" }

/-- A model stream delivering the chunks "Hel", "lo", " world" and then the end of the stream. -/
def helloStream : CompletionStream :=
  { responses := [["Hel"], ["lo"], [" world"]], ending := none }

/-- A use case whose store holds `freshChat` under every id and accepts every write, and whose
model client answers with `helloStream`. -/
def helloUseCase : ChatCompletionUseCase :=
  { ChatGateway :=
      { CreateChat := fun _ => .ok ()
        FindChatByID := fun _ => .ok freshChat
        SaveChat := fun _ => .ok () }
    CreateCompletionStream := fun _ => .ok helloStream
    CountTokens := exampleCount
    ids := exampleIDs }

/-- A turn input for an unknown chat id: a valid configuration of capacity 10, a user id and an
initial system message of 8 characters. -/
def newConversationInput : ChatCompletionInputDTO :=
  { ChatID := "chat-9"
    UserID := "user-1"
    UserMessage := "hi"
    Config := some
      { Model := "gpt-3.5-turbo"
        ModelMaxToken := 10
        Temperature := 1
        TopP := 1
        N := 1
        Stop := ["END"]
        MaxTokens := 5
        PresencePenalty := 0
        FrequencyPenalty := 0
        InitialSystemMessage := "be brief" } }

/-- A turn input for the chat the store of `helloUseCase` holds. -/
def helloInput : ChatCompletionInputDTO :=
  { ChatID := "chat-1", UserID := "user-1", UserMessage := "hi", Config := none }

/-- The empty in-memory database. -/
def emptyDB : db.MemDB := { chats := [], messages := [] }

/-- A time of saving for the examples. -/
def saveTime : Time := { nanos := 1700000500 }

/-- A use case whose store is the repository over the empty in-memory database. -/
def repositoryUseCase : ChatCompletionUseCase :=
  { helloUseCase with ChatGateway := repositoryGateway db.memQueries saveTime emptyDB }

/-- A use case whose store reports a miss with the very message `Execute` compares with. -/
def missingUseCase : ChatCompletionUseCase :=
  { helloUseCase with
    ChatGateway :=
      { CreateChat := fun _ => .ok ()
        FindChatByID := fun _ => .error "chat not found"
        SaveChat := fun _ => .ok () } }

/-- The in-memory database after the repository created `freshChat` in it and then saved
`boundaryChatAfter` under the same id. -/
def savedDB : db.MemDB :=
  (repository.SaveChat db.memQueries saveTime
    (repository.CreateChat db.memQueries emptyDB freshChat).1 boundaryChatAfter).1

/-- A message as `FindChatByID` rebuilds it from its row: the model carries the name alone. -/
def asReloaded (message : Message) : Message :=
  { message with Model := { Name := exampleModel.Name, MaxTokens := 0 } }

/-- What `FindChatByID` returns for `chat-1` on `savedDB`. -/
def reloadedChat : Chat :=
  { ID := "chat-1"
    UserID := "user-1"
    InitialSystemMessage := none
    Messages :=
      [asReloaded userHi, asReloaded assistantHello, asReloaded userWhy, asReloaded systemMessage]
    EraseMessages := []
    Status := "active"
    TokenUsage := 8
    Config := exampleConfig }

/-- Token usage the loop of `AddMessage` sees at the head of its iteration number `j` (counted
from `0`), when it starts from `usage` with the active messages `messages`. -/
def usageAt (usage : Int) (messages : List Message) (j : Nat) : Int :=
  if j = 0 then usage else tokenSum (messages.drop j)



/-! ## Token sums -/

theorem wrapInt_of_range (x : Int) (hlo : -9223372036854775808 ≤ x)
    (hhi : x < 9223372036854775808) : wrapInt x = x := by
  unfold wrapInt
  omega

theorem sum_tokens_nonneg (messages : List Message)
    (h : ∀ x ∈ messages, 0 ≤ x.GetQtdToken) :
    0 ≤ (messages.map Message.GetQtdToken).sum := by
  apply List.sum_nonneg
  intro t ht
  obtain ⟨x, hx, rfl⟩ := List.mem_map.1 ht
  exact h x hx

theorem sum_tokens_drop (messages : List Message)
    (h : ∀ x ∈ messages, 0 ≤ x.GetQtdToken) (j : Nat) :
    0 ≤ ((messages.drop j).map Message.GetQtdToken).sum ∧
      ((messages.drop j).map Message.GetQtdToken).sum
        ≤ (messages.map Message.GetQtdToken).sum := by
  have hdrop := sum_tokens_nonneg (messages.drop j)
    (fun x hx => h x (List.mem_of_mem_drop hx))
  have htake := sum_tokens_nonneg (messages.take j)
    (fun x hx => h x (List.mem_of_mem_take hx))
  have hsplit : (messages.map Message.GetQtdToken).sum
      = ((messages.take j).map Message.GetQtdToken).sum
        + ((messages.drop j).map Message.GetQtdToken).sum := by
    rw [← List.sum_append, ← List.map_append, List.take_append_drop]
  exact ⟨hdrop, by linarith⟩

/-- The wrapping accumulation is the exact sum as long as the token counts are non-negative and
the exact sum stays below `2^63`. -/
theorem foldl_tokens (messages : List Message) :
    ∀ start : Int, 0 ≤ start → (∀ x ∈ messages, 0 ≤ x.GetQtdToken) →
      start + (messages.map Message.GetQtdToken).sum < 9223372036854775808 →
      messages.foldl (fun usage message => wrapInt (usage + message.GetQtdToken)) start
        = start + (messages.map Message.GetQtdToken).sum := by
  induction messages with
  | nil => intro start _ _ _; simp
  | cons head tail ih =>
    intro start hstart hnonneg hrange
    have hhead : 0 ≤ head.GetQtdToken := hnonneg head (List.mem_cons_self _ _)
    have htail : ∀ x ∈ tail, 0 ≤ x.GetQtdToken :=
      fun x hx => hnonneg x (List.mem_cons_of_mem _ hx)
    have hsum := sum_tokens_nonneg tail htail
    simp only [List.map_cons, List.sum_cons] at hrange
    have hwrap : wrapInt (start + head.GetQtdToken) = start + head.GetQtdToken :=
      wrapInt_of_range _ (by linarith) (by linarith)
    simp only [List.foldl_cons, List.map_cons, List.sum_cons, hwrap]
    rw [ih (start + head.GetQtdToken) (by linarith) htail (by linarith)]
    ring

theorem tokenSum_eq_sum (messages : List Message)
    (hnonneg : ∀ x ∈ messages, 0 ≤ x.GetQtdToken)
    (hrange : (messages.map Message.GetQtdToken).sum < 9223372036854775808) :
    tokenSum messages = (messages.map Message.GetQtdToken).sum := by
  unfold tokenSum
  rw [foldl_tokens messages 0 (le_refl _) hnonneg (by linarith)]
  ring

/-- What the loop of `AddMessage` does, whatever the state it starts from. -/
theorem addMessageLoop_spec (chat : Chat) (message : Message) (messages : List Message) :
    ∀ (erased : List Message) (usage : Int),
      (∃ k, k ≤ messages.length ∧
        Chat.addMessageLoop chat message messages erased usage
          = .done { chat with
                      Messages := messages.drop k ++ [message]
                      EraseMessages := erased ++ messages.take k
                      TokenUsage := tokenSum (messages.drop k ++ [message]) } none ∧
        wrapInt (message.GetQtdToken + usageAt usage messages k)
          ≤ chat.Config.Model.GetMaxTokens ∧
        ∀ j, j < k →
          ¬ wrapInt (message.GetQtdToken + usageAt usage messages j)
              ≤ chat.Config.Model.GetMaxTokens)
      ∨
      (Chat.addMessageLoop chat message messages erased usage
          = .panic "index out of range [0] with length 0" ∧
        ∀ j, j ≤ messages.length →
          ¬ wrapInt (message.GetQtdToken + usageAt usage messages j)
              ≤ chat.Config.Model.GetMaxTokens) := by
  induction messages with
  | nil =>
    intro erased usage
    by_cases hfit : wrapInt (message.GetQtdToken + usage) ≤ chat.Config.Model.GetMaxTokens
    · left
      refine ⟨0, le_refl _, ?_, ?_, ?_⟩
      · simp [Chat.addMessageLoop, hfit, Chat.RefreshTokenUsage]
      · simpa [usageAt] using hfit
      · intro j hj; omega
    · right
      refine ⟨?_, ?_⟩
      · simp [Chat.addMessageLoop, hfit]
      · intro j hj
        have : j = 0 := by simpa using hj
        subst this
        simpa [usageAt] using hfit
  | cons oldest rest ih =>
    intro erased usage
    by_cases hfit : wrapInt (message.GetQtdToken + usage) ≤ chat.Config.Model.GetMaxTokens
    · left
      refine ⟨0, Nat.zero_le _, ?_, ?_, ?_⟩
      · simp [Chat.addMessageLoop, hfit, Chat.RefreshTokenUsage]
      · simpa [usageAt] using hfit
      · intro j hj; omega
    · have hstep : Chat.addMessageLoop chat message (oldest :: rest) erased usage
          = Chat.addMessageLoop chat message rest (erased ++ [oldest]) (tokenSum rest) := by
        simp [Chat.addMessageLoop, hfit]
      have hshift : ∀ j, usageAt usage (oldest :: rest) (j + 1)
          = usageAt (tokenSum rest) rest j := by
        intro j
        by_cases hj : j = 0
        · subst hj; simp [usageAt]
        · simp [usageAt, hj]
      rcases ih (erased ++ [oldest]) (tokenSum rest) with ⟨k, hk, hdone, hle, hmin⟩ | ⟨hpanic, hall⟩
      · left
        refine ⟨k + 1, by simpa using hk, ?_, ?_, ?_⟩
        · rw [hstep, hdone]; simp
        · rw [hshift]; exact hle
        · intro j hj
          cases j with
          | zero => simpa [usageAt] using hfit
          | succ i => rw [hshift]; exact hmin i (by omega)
      · right
        refine ⟨by rw [hstep, hpanic], ?_⟩
        intro j hj
        cases j with
        | zero => simpa [usageAt] using hfit
        | succ i => rw [hshift]; exact hall i (by simpa using hj)

/-! ## `AddMessage` -/

/-- Without overflow, the usage the loop sees at iteration `j` is the exact sum of the messages
still active, and adding the new message's count to it does not wrap. -/
theorem usageAt_exact (usage : Int) (messages : List Message) (message : Message)
    (husage : usage = (messages.map Message.GetQtdToken).sum)
    (hnonneg : ∀ x ∈ messages, 0 ≤ x.GetQtdToken)
    (hmessage : 0 ≤ message.GetQtdToken)
    (hrange : (messages.map Message.GetQtdToken).sum + message.GetQtdToken
      < 9223372036854775808) (j : Nat) :
    usageAt usage messages j = ((messages.drop j).map Message.GetQtdToken).sum ∧
      wrapInt (message.GetQtdToken + usageAt usage messages j)
        = ((messages.drop j).map Message.GetQtdToken).sum + message.GetQtdToken := by
  obtain ⟨hlo, hhi⟩ := sum_tokens_drop messages hnonneg j
  have hat : usageAt usage messages j = ((messages.drop j).map Message.GetQtdToken).sum := by
    by_cases hj : j = 0
    · subst hj; simp [usageAt, husage]
    · simp only [usageAt, hj, if_false]
      exact tokenSum_eq_sum _ (fun x hx => hnonneg x (List.mem_of_mem_drop hx)) (by linarith)
  refine ⟨hat, ?_⟩
  rw [hat, wrapInt_of_range _ (by linarith) (by linarith)]
  ring

/-- On a chat that is not ended, whose usage is the sum over its active messages and whose sums
do not overflow, a message that fits the capacity on its own is accepted after the least number
of evictions. -/
theorem addMessage_of_fit (chat : Chat) (message : Message)
    (hstatus : chat.Status ≠ "ended")
    (husage : chat.TokenUsage = (chat.Messages.map Message.GetQtdToken).sum)
    (hnonneg : ∀ x ∈ chat.Messages, 0 ≤ x.GetQtdToken)
    (hmessage : 0 ≤ message.GetQtdToken)
    (hrange : (chat.Messages.map Message.GetQtdToken).sum + message.GetQtdToken
      < 9223372036854775808)
    (hfit : message.GetQtdToken ≤ chat.Config.Model.GetMaxTokens) :
    ∃ k, k ≤ chat.Messages.length ∧
      chat.AddMessage message
        = .done { chat with
                    Messages := chat.Messages.drop k ++ [message]
                    EraseMessages := chat.EraseMessages ++ chat.Messages.take k
                    TokenUsage := ((chat.Messages.drop k).map Message.GetQtdToken).sum
                      + message.GetQtdToken } none ∧
      ((chat.Messages.drop k).map Message.GetQtdToken).sum + message.GetQtdToken
        ≤ chat.Config.Model.GetMaxTokens ∧
      ∀ j, j < k →
        chat.Config.Model.GetMaxTokens
          < ((chat.Messages.drop j).map Message.GetQtdToken).sum + message.GetQtdToken := by
  have hadd : chat.AddMessage message
      = Chat.addMessageLoop chat message chat.Messages chat.EraseMessages chat.TokenUsage := by
    simp [Chat.AddMessage, hstatus]
  have hexact := usageAt_exact chat.TokenUsage chat.Messages message husage hnonneg hmessage hrange
  rcases addMessageLoop_spec chat message chat.Messages chat.EraseMessages chat.TokenUsage with
    ⟨k, hk, hdone, hle, hmin⟩ | ⟨_, hall⟩
  · refine ⟨k, hk, ?_, ?_, ?_⟩
    · rw [hadd, hdone]
      obtain ⟨hlo, hhi⟩ := sum_tokens_drop chat.Messages hnonneg k
      have hsum : tokenSum (chat.Messages.drop k ++ [message])
          = ((chat.Messages.drop k).map Message.GetQtdToken).sum + message.GetQtdToken := by
        rw [tokenSum_eq_sum]
        · simp
        · intro x hx
          rcases List.mem_append.1 hx with hx | hx
          · exact hnonneg x (List.mem_of_mem_drop hx)
          · rw [List.mem_singleton.1 hx]; exact hmessage
        · simp only [List.map_append, List.sum_append, List.map_cons, List.map_nil,
            List.sum_cons, List.sum_nil, add_zero]
          linarith
      rw [hsum]
    · rw [← (hexact k).2]; exact hle
    · intro j hj
      have := hmin j hj
      rw [(hexact j).2] at this
      exact lt_of_not_le this
  · exfalso
    apply hall chat.Messages.length (le_refl _)
    rw [(hexact chat.Messages.length).2]
    simpa using hfit

/-- What a call of `AddMessage` that returns has done to the two buffers. -/
theorem addMessage_done (chat next : Chat) (message : Message) (erro : Option String)
    (h : chat.AddMessage message = .done next erro) :
    (erro = some "Chat is ended, no more messages allowed" ∧ next = chat) ∨
    (erro = none ∧ ∃ k, k ≤ chat.Messages.length ∧
      next = { chat with
                 Messages := chat.Messages.drop k ++ [message]
                 EraseMessages := chat.EraseMessages ++ chat.Messages.take k
                 TokenUsage := tokenSum (chat.Messages.drop k ++ [message]) }) := by
  by_cases hstatus : chat.Status = "ended"
  · left
    simp only [Chat.AddMessage, hstatus, if_true] at h
    injection h with h1 h2
    exact ⟨h2.symm, h1.symm⟩
  · right
    have hadd : chat.AddMessage message
        = Chat.addMessageLoop chat message chat.Messages chat.EraseMessages chat.TokenUsage := by
      simp [Chat.AddMessage, hstatus]
    rcases addMessageLoop_spec chat message chat.Messages chat.EraseMessages chat.TokenUsage with
      ⟨k, hk, hdone, _, _⟩ | ⟨hpanic, _⟩
    · rw [hadd, hdone] at h
      injection h with h1 h2
      exact ⟨h2.symm, k, hk, h1.symm⟩
    · rw [hadd, hpanic] at h
      cases h

/-- A chat that `NewChat` returns for an initial message with a non-negative token count below
`2^63`: active, with the given configuration, holding the initial message alone, its usage being
that message's token count, within the capacity. -/
theorem newChat_ok (id userID : String) (initialSystemMessage : Message)
    (chatConfig : ChatConfig) (chat : Chat)
    (hlo : 0 ≤ initialSystemMessage.GetQtdToken)
    (hhi : initialSystemMessage.GetQtdToken < 9223372036854775808)
    (h : NewChat id userID initialSystemMessage chatConfig = .ok chat) :
    chat.Status = "active" ∧ chat.Config = chatConfig ∧
      chat.Messages = [initialSystemMessage] ∧ chat.EraseMessages = [] ∧
      chat.TokenUsage = initialSystemMessage.GetQtdToken ∧
      chat.TokenUsage ≤ chatConfig.Model.GetMaxTokens := by
  have hwrap : wrapInt initialSystemMessage.GetQtdToken = initialSystemMessage.GetQtdToken :=
    wrapInt_of_range _ (by linarith) hhi
  unfold NewChat at h
  simp only [Chat.AddMessage, Chat.addMessageLoop] at h
  by_cases hfit : initialSystemMessage.GetQtdToken ≤ chatConfig.Model.GetMaxTokens
  · simp only [show ("active" : String) = "ended" ↔ False from by decide, if_false, ge_iff_le,
      add_zero, hwrap, hfit, if_true] at h
    split at h
    · cases h
    · injection h with h
      subst h
      refine ⟨rfl, rfl, rfl, rfl, ?_, ?_⟩
      · simp [Chat.RefreshTokenUsage, tokenSum, hwrap]
      · simpa [Chat.RefreshTokenUsage, tokenSum, hwrap] using hfit
  · simp [hwrap, hfit] at h

theorem addMessages_invariant (capacity : Int) (hcapacity : capacity < 4611686018427387904)
    (messages : List Message) :
    ∀ chat : Chat, chat.Status ≠ "ended" → chat.Config.Model.GetMaxTokens = capacity →
      chat.TokenUsage = (chat.Messages.map Message.GetQtdToken).sum →
      chat.TokenUsage ≤ capacity →
      (∀ x ∈ chat.Messages, 0 ≤ x.GetQtdToken) →
      (∀ m ∈ messages, 0 ≤ m.GetQtdToken ∧ m.GetQtdToken ≤ capacity) →
      (addMessages chat messages).length = messages.length ∧
      ∀ r ∈ addMessages chat messages, ∃ next, r = .done next none ∧
        next.TokenUsage = (next.Messages.map Message.GetQtdToken).sum ∧
        next.TokenUsage ≤ capacity := by
  induction messages with
  | nil => intro chat _ _ _ _ _ _; simp [addMessages]
  | cons message rest ih =>
    intro chat hstatus hcap husage hle hnonneg hfit
    obtain ⟨hm0, hmcap⟩ := hfit message (List.mem_cons_self _ _)
    obtain ⟨k, _, hdone, hfits, _⟩ := addMessage_of_fit chat message hstatus husage hnonneg hm0
      (by rw [← husage]; linarith) (by rw [hcap]; exact hmcap)
    have hnext := ih
      { chat with
          Messages := chat.Messages.drop k ++ [message]
          EraseMessages := chat.EraseMessages ++ chat.Messages.take k
          TokenUsage := ((chat.Messages.drop k).map Message.GetQtdToken).sum
            + message.GetQtdToken }
      hstatus hcap (by simp) (by rw [← hcap]; exact hfits)
      (by
        intro x hx
        rcases List.mem_append.1 hx with hx | hx
        · exact hnonneg x (List.mem_of_mem_drop hx)
        · rw [List.mem_singleton.1 hx]; exact hm0)
      (fun m hmem => hfit m (List.mem_cons_of_mem _ hmem))
    simp only [addMessages, hdone]
    refine ⟨by rw [List.length_cons, List.length_cons, hnext.1], ?_⟩
    intro r hr
    rcases List.mem_cons.1 hr with rfl | hr
    · refine ⟨_, rfl, by simp, ?_⟩
      rw [← hcap]; exact hfits
    · exact hnext.2 r hr

/-- Beyond the bound the Go additions wrap: at the capacity `2^63 - 1`, with one active message
of `2^63 - 1` tokens, the test for a 1-token message computes `-2^63`, so nothing is evicted and
the refreshed usage is `-2^63` while the two active token counts sum to `2^63`. -/
theorem addMessage_wraps_at_max :
    NewChat "chat-1" "user-1" maxIntMessage maxIntConfig = .ok maxIntChat ∧
    maxIntChat.AddMessage oneTokenMessage
      = .done { maxIntChat with
                  Messages := [maxIntMessage, oneTokenMessage]
                  TokenUsage := -9223372036854775808 } none ∧
    ([maxIntMessage, oneTokenMessage].map Message.GetQtdToken).sum = 9223372036854775808 := by
  decide

/-- The temperature check of `Validate`: a chat with a user id and the status "active" passes
exactly when its temperature lies between 0 and 2. -/
theorem validate_temperature (chat : Chat) (huser : chat.UserID ≠ "")
    (hstatus : chat.Status = "active") :
    chat.Validate = none ↔ 0 ≤ chat.Config.Temperature ∧ chat.Config.Temperature ≤ 2 := by
  unfold Chat.Validate
  rw [if_neg huser, if_neg (by rw [hstatus]; decide)]
  split_ifs with h
  · constructor
    · intro hnone; cases hnone
    · rintro ⟨hlo, hhi⟩
      rcases h with h | h <;> linarith
  · push_neg at h
    exact ⟨fun _ => h, fun _ => rfl⟩

/-- `NewChat` returns a chat for every non-empty user id, every temperature between 0 and 2 and
every initial message whose token count is non-negative and within the capacity. -/
theorem newChat_returns (id userID : String) (initialSystemMessage : Message)
    (chatConfig : ChatConfig) (huser : userID ≠ "")
    (htemp : 0 ≤ chatConfig.Temperature ∧ chatConfig.Temperature ≤ 2)
    (hlo : 0 ≤ initialSystemMessage.GetQtdToken)
    (hhi : initialSystemMessage.GetQtdToken < 9223372036854775808)
    (hfit : initialSystemMessage.GetQtdToken ≤ chatConfig.Model.GetMaxTokens) :
    NewChat id userID initialSystemMessage chatConfig
      = .ok { ID := id
              UserID := userID
              InitialSystemMessage := some initialSystemMessage
              Messages := [initialSystemMessage]
              EraseMessages := []
              Status := "active"
              TokenUsage := initialSystemMessage.GetQtdToken
              Config := chatConfig } := by
  have hwrap : wrapInt initialSystemMessage.GetQtdToken = initialSystemMessage.GetQtdToken :=
    wrapInt_of_range _ (by linarith) hhi
  have hvalid : Chat.Validate
      { ID := id, UserID := userID, InitialSystemMessage := some initialSystemMessage,
        Messages := [initialSystemMessage], EraseMessages := [], Status := "active",
        TokenUsage := initialSystemMessage.GetQtdToken, Config := chatConfig } = none :=
    (validate_temperature _ huser rfl).2 htemp
  unfold NewChat
  simp only [Chat.AddMessage, Chat.addMessageLoop,
    show ("active" : String) = "ended" ↔ False from by decide, if_false, ge_iff_le, add_zero,
    hwrap, hfit, if_true, Chat.RefreshTokenUsage, tokenSum, List.nil_append, List.foldl_cons,
    List.foldl_nil, zero_add, hvalid]

/-- `NewChat` accepts the temperature 1.5, which is within the bounds `Validate` checks and above
the 1.0 the comment on the field `Temperature` names. -/
theorem newChat_accepts_warm :
    NewChat "chat-1" "user-1" systemMessage warmConfig
      = .ok { freshChat with Config := warmConfig } :=
  newChat_returns "chat-1" "user-1" systemMessage warmConfig (by decide)
    (by constructor <;> norm_num [warmConfig]) (by decide) (by decide) (by decide)

/-! ## `NewMessage` and `Execute` -/

/-- The timestamp `NewMessage` stores is the zero time, so `Validate` never passes: whatever the
role and the content, `NewMessage` returns an error. -/
theorem newMessage_error (CountTokens : String → String → Int) (id role content : String)
    (model : Model) :
    NewMessage CountTokens id role content model
      = .error
          (if role ≠ "user" ∧ role ≠ "system" ∧ role ≠ "assistant" then "Invalid Role"
            else if content = "" then "Content is empty!"
            else "Invalid created_at") := by
  simp only [NewMessage, Message.Validate, Time.zeroValue, Time.IsZero]
  split_ifs <;> simp_all

/-- The create path never yields a chat. -/
theorem createNewChat_not_ok (CountTokens : String → String → Int) (ids : FreshIDs)
    (input : ChatCompletionInputDTO) (chat : Chat) :
    CreateNewChat CountTokens ids input ≠ .ok chat := by
  unfold CreateNewChat
  cases input.Config with
  | none => simp
  | some config => simp [newMessage_error]

/-- Every run of `Execute` consists of the lookup alone and does not end with a result. -/
theorem execute_events (useCase : ChatCompletionUseCase) (input : ChatCompletionInputDTO) :
    (Execute useCase input).events = [.findChatByID input.ChatID] ∧
      ∀ output, (Execute useCase input).result ≠ .ok output := by
  have hturn : ∀ chat, completeTurn useCase input chat
      = { events := [], result := .error ("Error creating user message: "
            ++ (if input.UserMessage = "" then "Content is empty!" else "Invalid created_at")) } := by
    intro chat
    simp [completeTurn, newMessage_error]
  unfold Execute resolveChat
  cases hfind : useCase.ChatGateway.FindChatByID input.ChatID with
  | panic reason => simp
  | ok chat => simp [hturn]
  | error erro =>
    by_cases hmsg : erro = "chat not found"
    · simp only [hmsg, if_true]
      cases hnew : CreateNewChat useCase.CountTokens useCase.ids input with
      | panic reason => simp
      | error e => simp
      | ok chat => exact absurd hnew (createNewChat_not_ok _ _ _ _)
    · simp [hmsg]

/-- The receive loop on its own: when every response carries its chunk as first choice and the
stream ends with `io.EOF`, the loop sends the snapshots of the chunks in order and ends with all
chunks concatenated after the builder's initial content. -/
theorem recvLoop_snapshots (chatID userID : String) (chunks : List String) :
    ∀ start : String,
      recvLoop chatID userID none (chunks.map (fun chunk => [chunk])) start
        = { events := (snapshots chatID userID start chunks).map Event.send
            result := .ok (chunks.foldl (fun text chunk => text ++ chunk) start) } := by
  induction chunks with
  | nil => intro start; simp [recvLoop, snapshots]
  | cons chunk rest ih => intro start; simp [recvLoop, snapshots, ih]

/-! ## The claims -/

/-- C1. Token accounting, for token counts that are non-negative and a capacity below `2^62`, so
that no sum the code forms reaches `2^63`: a chat returned by `NewChat` has a token usage equal
to the sum of the token counts of its active messages and within the capacity; and for every list
of messages none of which exceeds the capacity on its own, every `AddMessage` call of the
sequence returns without error, and after each call the token usage is again that sum and within
the capacity. -/
theorem token_accounting (id userID : String) (initialSystemMessage : Message)
    (chatConfig : ChatConfig) (chat : Chat) (messages : List Message)
    (hnew : NewChat id userID initialSystemMessage chatConfig = .ok chat)
    (hcapacity : chatConfig.Model.GetMaxTokens < 4611686018427387904)
    (hinit : 0 ≤ initialSystemMessage.GetQtdToken ∧
      initialSystemMessage.GetQtdToken ≤ chatConfig.Model.GetMaxTokens)
    (hfit : ∀ m ∈ messages,
      0 ≤ m.GetQtdToken ∧ m.GetQtdToken ≤ chatConfig.Model.GetMaxTokens) :
    (chat.TokenUsage = (chat.Messages.map Message.GetQtdToken).sum ∧
      chat.TokenUsage ≤ chatConfig.Model.GetMaxTokens) ∧
    (addMessages chat messages).length = messages.length ∧
    ∀ r ∈ addMessages chat messages, ∃ next, r = .done next none ∧
      next.TokenUsage = (next.Messages.map Message.GetQtdToken).sum ∧
      next.TokenUsage ≤ chatConfig.Model.GetMaxTokens := by
  obtain ⟨hstatus, hconfig, hmsgs, _, husage, hle⟩ :=
    newChat_ok id userID initialSystemMessage chatConfig chat hinit.1 (by linarith [hinit.2]) hnew
  have hne : chat.Status ≠ "ended" := by rw [hstatus]; decide
  have hsum : chat.TokenUsage = (chat.Messages.map Message.GetQtdToken).sum := by
    rw [husage, hmsgs]; simp
  have hnonneg : ∀ x ∈ chat.Messages, 0 ≤ x.GetQtdToken := by
    intro x hx
    rw [hmsgs] at hx
    rw [List.mem_singleton.1 hx]; exact hinit.1
  exact ⟨⟨hsum, hle⟩,
    addMessages_invariant chatConfig.Model.GetMaxTokens hcapacity messages chat hne
      (by rw [hconfig]) hsum hle hnonneg hfit⟩

/-- Witness of C1: the chat of capacity 10 created with a 4-token system message, then fed
messages of 3, 2, 3 and 10 tokens. -/
theorem token_accounting_witness :
    NewChat "chat-1" "user-1" systemMessage exampleConfig = .ok freshChat ∧
    exampleConfig.Model.GetMaxTokens < 4611686018427387904 ∧
    (0 ≤ systemMessage.GetQtdToken ∧
      systemMessage.GetQtdToken ≤ exampleConfig.Model.GetMaxTokens) ∧
    (∀ m ∈ [userHi, assistantHello, userWhy, exampleMessage "m6" "assistant" "long" 10],
      0 ≤ m.GetQtdToken ∧ m.GetQtdToken ≤ exampleConfig.Model.GetMaxTokens) ∧
    ((freshChat.TokenUsage = (freshChat.Messages.map Message.GetQtdToken).sum ∧
        freshChat.TokenUsage ≤ exampleConfig.Model.GetMaxTokens) ∧
      (addMessages freshChat
          [userHi, assistantHello, userWhy, exampleMessage "m6" "assistant" "long" 10]).length
        = [userHi, assistantHello, userWhy, exampleMessage "m6" "assistant" "long" 10].length ∧
      ∀ r ∈ addMessages freshChat
          [userHi, assistantHello, userWhy, exampleMessage "m6" "assistant" "long" 10],
        ∃ next, r = .done next none ∧
          next.TokenUsage = (next.Messages.map Message.GetQtdToken).sum ∧
          next.TokenUsage ≤ exampleConfig.Model.GetMaxTokens) :=
  ⟨by decide, by decide, by decide, by decide,
    token_accounting "chat-1" "user-1" systemMessage exampleConfig freshChat
      [userHi, assistantHello, userWhy, exampleMessage "m6" "assistant" "long" 10]
      (by decide) (by decide) (by decide) (by decide)⟩

/-- C2. On an active chat with non-negative token counts and usage, `AddMessage` of a message
whose own token count exceeds the capacity does not return at all, neither with an error nor with
the message accepted: it evicts every active message and then panics on indexing the empty
active buffer.  (The sums are taken below `2^63`, where the Go additions do not wrap.) -/
theorem addMessage_over_capacity_panics (chat : Chat) (message : Message)
    (hactive : chat.Status = "active")
    (husage : 0 ≤ chat.TokenUsage)
    (htokens : ∀ x ∈ chat.Messages, 0 ≤ x.GetQtdToken)
    (hcapacity : 0 ≤ chat.Config.Model.GetMaxTokens)
    (hrange : chat.TokenUsage + message.GetQtdToken < 9223372036854775808 ∧
      (chat.Messages.map Message.GetQtdToken).sum + message.GetQtdToken < 9223372036854775808)
    (hover : chat.Config.Model.GetMaxTokens < message.GetQtdToken) :
    chat.AddMessage message = .panic "index out of range [0] with length 0" := by
  have hne : chat.Status ≠ "ended" := by rw [hactive]; decide
  have hadd : chat.AddMessage message
      = Chat.addMessageLoop chat message chat.Messages chat.EraseMessages chat.TokenUsage := by
    simp [Chat.AddMessage, hne]
  have hover' : ∀ j, chat.Config.Model.GetMaxTokens
      < wrapInt (message.GetQtdToken + usageAt chat.TokenUsage chat.Messages j) := by
    intro j
    have hat : 0 ≤ usageAt chat.TokenUsage chat.Messages j ∧
        usageAt chat.TokenUsage chat.Messages j + message.GetQtdToken < 9223372036854775808 := by
      by_cases hj : j = 0
      · simp only [usageAt, hj, if_true]; exact ⟨husage, hrange.1⟩
      · obtain ⟨hlo, hhi⟩ := sum_tokens_drop chat.Messages htokens j
        simp only [usageAt, hj, if_false]
        rw [tokenSum_eq_sum _ (fun x hx => htokens x (List.mem_of_mem_drop hx))
          (by linarith [hrange.2])]
        exact ⟨hlo, by linarith [hrange.2]⟩
    rw [wrapInt_of_range _ (by linarith [hat.1]) (by linarith [hat.2])]
    linarith [hat.1]
  rcases addMessageLoop_spec chat message chat.Messages chat.EraseMessages chat.TokenUsage with
    ⟨k, _, _, hle, _⟩ | ⟨hpanic, _⟩
  · exact absurd hle (not_le.2 (hover' k))
  · rw [hadd, hpanic]

/-- Witness of C2: the 11-token message on the chat of capacity 10 holding 4, 3 and 2 tokens. -/
theorem addMessage_over_capacity_panics_witness :
    (boundaryChat.Status = "active" ∧ 0 ≤ boundaryChat.TokenUsage ∧
      (∀ x ∈ boundaryChat.Messages, 0 ≤ x.GetQtdToken) ∧
      0 ≤ boundaryChat.Config.Model.GetMaxTokens ∧
      (boundaryChat.TokenUsage + oversizeMessage.GetQtdToken < 9223372036854775808 ∧
        (boundaryChat.Messages.map Message.GetQtdToken).sum + oversizeMessage.GetQtdToken
          < 9223372036854775808) ∧
      boundaryChat.Config.Model.GetMaxTokens < oversizeMessage.GetQtdToken) ∧
    boundaryChat.AddMessage oversizeMessage = .panic "index out of range [0] with length 0" :=
  ⟨by decide,
    addMessage_over_capacity_panics boundaryChat oversizeMessage
      (by decide) (by decide) (by decide) (by decide) (by decide) (by decide)⟩

/-- C4. After `End`, `AddMessage` returns the error "Chat is ended, no more messages allowed" and
leaves the chat as `End` left it: the active buffer, the evicted log and the token usage are those
from before the call.  The same holds for every further call: each call of a sequence of
`AddMessage` calls after `End` returns that error on the unchanged chat. -/
theorem addMessage_after_end (chat : Chat) (message : Message) :
    chat.End.AddMessage message
      = .done chat.End (some "Chat is ended, no more messages allowed") ∧
    chat.End.Messages = chat.Messages ∧ chat.End.EraseMessages = chat.EraseMessages ∧
    chat.End.TokenUsage = chat.TokenUsage ∧
    ∀ messages : List Message,
      addMessages chat.End messages
        = List.replicate messages.length
            (.done chat.End (some "Chat is ended, no more messages allowed")) := by
  have hcall : ∀ m : Message, chat.End.AddMessage m
      = .done chat.End (some "Chat is ended, no more messages allowed") := by
    intro m
    simp [Chat.AddMessage, Chat.End]
  refine ⟨hcall message, rfl, rfl, rfl, ?_⟩
  intro messages
  induction messages with
  | nil => rfl
  | cons head rest ih =>
    simp only [addMessages, hcall, List.length_cons, List.replicate_succ]
    rw [ih]

/-- C5. A call of `AddMessage` that returns has evicted some number `k` of the oldest active
messages: the evicted log is the old log followed by those `k` messages, oldest first; when the
message is accepted the active buffer is the rest of the old buffer, in order, followed by the new
message, and when the call returns an error nothing is evicted and the buffer is unchanged; the
two lengths together do not decrease. -/
theorem addMessage_fifo (chat next : Chat) (message : Message) (erro : Option String)
    (h : chat.AddMessage message = .done next erro) :
    ∃ k, k ≤ chat.Messages.length ∧
      next.EraseMessages = chat.EraseMessages ++ chat.Messages.take k ∧
      (erro = none → next.Messages = chat.Messages.drop k ++ [message]) ∧
      (erro ≠ none → k = 0 ∧ next.Messages = chat.Messages) ∧
      chat.Messages.length + chat.EraseMessages.length
        ≤ next.Messages.length + next.EraseMessages.length := by
  rcases addMessage_done chat next message erro h with ⟨herr, hsame⟩ | ⟨hnone, k, hk, hnext⟩
  · subst hsame
    refine ⟨0, Nat.zero_le _, by simp, ?_, fun _ => ⟨rfl, rfl⟩, le_refl _⟩
    intro hnone
    rw [hnone] at herr
    cases herr
  · subst hnext
    refine ⟨k, hk, rfl, fun _ => rfl, fun hne => absurd hnone hne, ?_⟩
    simp only [List.length_append, List.length_drop, List.length_take, List.length_singleton]
    omega

/-- Witness of C5: adding the 3-token message to the chat of capacity 10 holding 4, 3 and 2. -/
theorem addMessage_fifo_witness :
    boundaryChat.AddMessage userWhy = .done boundaryChatAfter none ∧
    ∃ k, k ≤ boundaryChat.Messages.length ∧
      boundaryChatAfter.EraseMessages = boundaryChat.EraseMessages ++ boundaryChat.Messages.take k ∧
      ((none : Option String) = none →
        boundaryChatAfter.Messages = boundaryChat.Messages.drop k ++ [userWhy]) ∧
      ((none : Option String) ≠ none → k = 0 ∧ boundaryChatAfter.Messages = boundaryChat.Messages) ∧
      boundaryChat.Messages.length + boundaryChat.EraseMessages.length
        ≤ boundaryChatAfter.Messages.length + boundaryChatAfter.EraseMessages.length :=
  ⟨by decide, addMessage_fifo boundaryChat boundaryChatAfter userWhy none (by decide)⟩

/-- C6. On an active chat whose token usage is the sum of its active messages' token counts,
with non-negative token counts and sums below `2^63`, `AddMessage` of a message that fits the
capacity on its own evicts exactly `k` oldest messages and then appends the message, where `k` is
the least number such that the remaining messages' token sum plus the message's token count is
within the capacity. -/
theorem addMessage_evicts_least (chat : Chat) (message : Message)
    (hactive : chat.Status = "active")
    (husage : chat.TokenUsage = (chat.Messages.map Message.GetQtdToken).sum)
    (hnonneg : (∀ x ∈ chat.Messages, 0 ≤ x.GetQtdToken) ∧ 0 ≤ message.GetQtdToken)
    (hrange : (chat.Messages.map Message.GetQtdToken).sum + message.GetQtdToken
      < 9223372036854775808)
    (hfit : message.GetQtdToken ≤ chat.Config.Model.GetMaxTokens) :
    ∃ k, k ≤ chat.Messages.length ∧
      chat.AddMessage message
        = .done { chat with
                    Messages := chat.Messages.drop k ++ [message]
                    EraseMessages := chat.EraseMessages ++ chat.Messages.take k
                    TokenUsage := ((chat.Messages.drop k).map Message.GetQtdToken).sum
                      + message.GetQtdToken } none ∧
      ((chat.Messages.drop k).map Message.GetQtdToken).sum + message.GetQtdToken
        ≤ chat.Config.Model.GetMaxTokens ∧
      ∀ j, j < k →
        chat.Config.Model.GetMaxTokens
          < ((chat.Messages.drop j).map Message.GetQtdToken).sum + message.GetQtdToken := by
  have hne : chat.Status ≠ "ended" := by rw [hactive]; decide
  exact addMessage_of_fit chat message hne husage hnonneg.1 hnonneg.2 hrange hfit

/-- Witness of C6, the capacity boundary scenario: capacity 10, active messages of 4, 3 and 2
tokens; adding a 3-token message evicts the 4-token message alone, leaves a usage of 8, and the
evicted log gains one entry. -/
theorem addMessage_evicts_least_witness :
    (boundaryChat.Status = "active" ∧
      boundaryChat.TokenUsage = (boundaryChat.Messages.map Message.GetQtdToken).sum ∧
      ((∀ x ∈ boundaryChat.Messages, 0 ≤ x.GetQtdToken) ∧ 0 ≤ userWhy.GetQtdToken) ∧
      (boundaryChat.Messages.map Message.GetQtdToken).sum + userWhy.GetQtdToken
        < 9223372036854775808 ∧
      userWhy.GetQtdToken ≤ boundaryChat.Config.Model.GetMaxTokens) ∧
    (∃ k, k ≤ boundaryChat.Messages.length ∧
      boundaryChat.AddMessage userWhy
        = .done { boundaryChat with
                    Messages := boundaryChat.Messages.drop k ++ [userWhy]
                    EraseMessages := boundaryChat.EraseMessages ++ boundaryChat.Messages.take k
                    TokenUsage := ((boundaryChat.Messages.drop k).map Message.GetQtdToken).sum
                      + userWhy.GetQtdToken } none ∧
      ((boundaryChat.Messages.drop k).map Message.GetQtdToken).sum + userWhy.GetQtdToken
        ≤ boundaryChat.Config.Model.GetMaxTokens ∧
      ∀ j, j < k →
        boundaryChat.Config.Model.GetMaxTokens
          < ((boundaryChat.Messages.drop j).map Message.GetQtdToken).sum
            + userWhy.GetQtdToken) ∧
    boundaryChat.AddMessage userWhy
      = .done { boundaryChat with
                  Messages := [userHi, assistantHello, userWhy]
                  EraseMessages := [systemMessage]
                  TokenUsage := 3 + 2 + 3 } none ∧
    boundaryChatAfter.EraseMessages.length = boundaryChat.EraseMessages.length + 1 :=
  ⟨by decide,
    addMessage_evicts_least boundaryChat userWhy (by decide) (by decide) (by decide) (by decide)
      (by decide),
    by decide, by decide⟩

/-- C3. Whatever the role, the content and the model, `NewMessage` returns an error and never a
message: "Invalid Role" for a role outside user, system and assistant, "Content is empty!" for an
empty content, and "Invalid created_at" in every remaining case, since the timestamp it stores is
the zero time.  So for the role "user" and the content "hello" it returns the error
"Invalid created_at". -/
theorem newMessage_always_fails :
    (∀ (CountTokens : String → String → Int) (id role content : String) (model : Model),
      NewMessage CountTokens id role content model
        = .error
            (if role ≠ "user" ∧ role ≠ "system" ∧ role ≠ "assistant" then "Invalid Role"
              else if content = "" then "Content is empty!"
              else "Invalid created_at")) ∧
    NewMessage exampleCount "id-user" "user" "hello" exampleModel
      = .error "Invalid created_at" := by
  refine ⟨fun CountTokens id role content model => ?_, rfl⟩
  simp only [NewMessage, Message.Validate, Time.zeroValue, Time.IsZero]
  split_ifs <;> simp_all

/-- C7. No run of `Execute` sends a snapshot or ends with a result, whatever the model stream
would deliver: the user message cannot be constructed, so the turn ends before the stream is
started.  With a store holding the chat and a stream of "Hel", "lo", " world", `Execute` does the
lookup and returns the error "Error creating user message: Invalid created_at". -/
theorem execute_publishes_nothing :
    (∀ (useCase : ChatCompletionUseCase) (input : ChatCompletionInputDTO),
      (Execute useCase input).events.filter
          (fun e => match e with
            | .send _ => true
            | _ => false) = [] ∧
        ∀ output, (Execute useCase input).result ≠ .ok output) ∧
    Execute helloUseCase helloInput
      = { events := [.findChatByID "chat-1"]
          result := .error "Error creating user message: Invalid created_at" } := by
  refine ⟨fun useCase input => ⟨?_, (execute_events useCase input).2⟩, by decide⟩
  rw [(execute_events useCase input).1]
  rfl

/-- C8. No run of `Execute` hands a chat to `CreateChat`.  With the repository over an empty
database as store, the miss is reported as "Chat not found!", which is not the text `Execute`
compares with, and the turn fails with "Error fetching existing chat: Chat not found!"; with a
store that reports "chat not found", the initial message is built with the role "System" and the
turn fails with "Error creating new chat: Error creating initial message: Invalid Role". -/
theorem execute_never_creates_chat :
    (∀ (useCase : ChatCompletionUseCase) (input : ChatCompletionInputDTO),
      (Execute useCase input).events.filter
          (fun e => match e with
            | .createChat _ => true
            | _ => false) = []) ∧
    Execute repositoryUseCase newConversationInput
      = { events := [.findChatByID "chat-9"]
          result := .error "Error fetching existing chat: Chat not found!" } ∧
    Execute missingUseCase newConversationInput
      = { events := [.findChatByID "chat-9"]
          result := .error
            "Error creating new chat: Error creating initial message: Invalid Role" } := by
  refine ⟨fun useCase input => ?_, by decide, by decide⟩
  rw [(execute_events useCase input).1]
  rfl

/-- C10. Whatever the queries do and whatever was saved, a chat that `FindChatByID` returns has
an empty evicted log, exactly one stop sequence and no initial system message: the evicted rows
are loaded into the active buffer. -/
theorem findChatByID_loses_evicted {σ : Type} (q : db.Queries σ) (d : σ) (chatID : String)
    (chat : Chat) (h : repository.FindChatByID q d chatID = .ok chat) :
    chat.EraseMessages = [] ∧ chat.Config.Stop.length = 1 ∧ chat.InitialSystemMessage = none ∧
      ∃ active erased,
        q.FindMessagesByChatID d chatID = .ok active ∧
        q.FindErasedMessagesByChatID d chatID = .ok erased ∧
        chat.Messages = active.map repository.messageOfRow ++ erased.map repository.messageOfRow := by
  unfold repository.FindChatByID at h
  cases hrow : q.FindChatByID d chatID with
  | error e => rw [hrow] at h; cases h
  | ok resp =>
    cases hactive : q.FindMessagesByChatID d chatID with
    | error e => rw [hrow, hactive] at h; cases h
    | ok active =>
      cases herased : q.FindErasedMessagesByChatID d chatID with
      | error e => rw [hrow, hactive, herased] at h; cases h
      | ok erased =>
        rw [hrow, hactive, herased] at h
        injection h with h
        subst h
        exact ⟨rfl, rfl, rfl, active, erased, rfl, rfl, by simp⟩

/-- Witness of C10: `boundaryChatAfter`, whose evicted log holds the system message, is saved
with `SaveChat` and reloaded with `FindChatByID`; the reloaded chat has the evicted message at the
end of its active buffer and an empty evicted log. -/
theorem findChatByID_loses_evicted_witness :
    repository.FindChatByID db.memQueries savedDB "chat-1" = .ok reloadedChat ∧
    boundaryChatAfter.EraseMessages = [systemMessage] ∧
    boundaryChatAfter.Messages = [userHi, assistantHello, userWhy] ∧
    (reloadedChat.EraseMessages = [] ∧ reloadedChat.Config.Stop.length = 1 ∧
      reloadedChat.InitialSystemMessage = none ∧
      ∃ active erased,
        db.memQueries.FindMessagesByChatID savedDB "chat-1" = .ok active ∧
        db.memQueries.FindErasedMessagesByChatID savedDB "chat-1" = .ok erased ∧
        reloadedChat.Messages
          = active.map repository.messageOfRow ++ erased.map repository.messageOfRow) :=
  ⟨rfl, by decide, by decide,
    findChatByID_loses_evicted db.memQueries savedDB "chat-1" reloadedChat rfl⟩
